import Mathlib

/-!
Shallow embedding of the cost-calculation and cost-history core of the
Matrix repository (`app/services/cost_service.py`,
`app/services/equipment_service.py`, and the models they read in
`app/models/organization.py`, `app/models/equipment.py`,
`app/models/requirement.py`, `app/models/budget.py`).

Modelling conventions:
* Python `Decimal` is modelled as the exact rationals `ℚ` (the code uses
  `decimal.Decimal` everywhere for money; all quantities appearing in the
  verified statements stay well inside `Decimal`'s 28-digit context, so
  exact rational arithmetic is a faithful model).
* A SQLAlchemy session is modelled as a record of lists of rows (`DB`),
  one list per table, in insertion order; primary-key lookups are
  `List.find?` and filtered queries are `List.filter`.
* Python exceptions are modelled with `Except PyError`: `ValueError`
  carries its message, and an access to an attribute that the touched
  object does not define is `PyError.attributeError`.
* Nullable columns are `Option _`; the Python truthiness tests the code
  performs on them (`or ZERO`, `if not x`, `and cov.department_id`) are
  modelled explicitly at each use site.
-/

namespace CostEngine

/-- Money values: Python `Decimal` modelled as exact rationals. -/
abbrev Money := ℚ

/-- Row of `org.department` (`app/models/organization.py`), the fields the
cost engine reads. -/
structure Department where
  id : Nat
  department_name : String
  is_active : Bool
deriving DecidableEq, Repr

/-- Row of `org.division`. -/
structure Division where
  id : Nat
  department_id : Nat
  division_name : String
  is_active : Bool
deriving DecidableEq, Repr

/-- Row of `org.position`; `authorized_count` is the budgeted headcount. -/
structure Position where
  id : Nat
  division_id : Nat
  position_code : String
  position_title : String
  authorized_count : Nat
  is_active : Bool
deriving DecidableEq, Repr

/-- Row of `equip.hardware_type` (`app/models/equipment.py`). -/
structure HardwareType where
  id : Nat
  type_name : String
  estimated_cost : Money
  is_active : Bool
deriving DecidableEq, Repr

/-- Row of `equip.hardware`: a specific hardware item within a type. -/
structure Hardware where
  id : Nat
  hardware_type_id : Nat
  name : String
  estimated_cost : Money
  is_active : Bool
deriving DecidableEq, Repr

/-- Row of `equip.software`; `license_model` is `"per_user"` or
`"tenant"`, and the matching one of `cost_per_license` / `total_cost`
applies (both columns are nullable). -/
structure Software where
  id : Nat
  name : String
  license_model : String
  cost_per_license : Option Money
  total_cost : Option Money
  is_active : Bool
deriving DecidableEq, Repr

/-- Row of `equip.software_coverage`: one coverage rule of a
tenant-licensed software, with nullable scope identifiers. -/
structure SoftwareCoverage where
  software_id : Nat
  scope_type : String
  department_id : Option Nat
  division_id : Option Nat
  position_id : Option Nat
deriving DecidableEq, Repr

/-- Row of `equip.position_hardware` (`app/models/requirement.py`).  The
model defines exactly the relationships `position` and `hardware`; it has
no `hardware_type` attribute. -/
structure PositionHardware where
  position_id : Nat
  hardware_id : Nat
  quantity : Nat
deriving DecidableEq, Repr

/-- Row of `equip.position_software`. -/
structure PositionSoftware where
  position_id : Nat
  software_id : Nat
  quantity : Nat
deriving DecidableEq, Repr

/-- The relational state the cost service reads: one list of rows per
table, in insertion order. -/
structure DB where
  departments : List Department
  divisions : List Division
  positions : List Position
  hardware_types : List HardwareType
  hardware_items : List Hardware
  softwares : List Software
  coverages : List SoftwareCoverage
  position_hardware : List PositionHardware
  position_software : List PositionSoftware
deriving DecidableEq, Repr

/-- Python exceptions the modelled code can raise. -/
inductive PyError where
  | valueError (msg : String)
  | attributeError
deriving DecidableEq, Repr

deriving instance DecidableEq for Except

/-- Python truthiness of a nullable integer id column: `None` and `0` are
falsy. -/
def truthyId : Option Nat → Bool
  | none => false
  | some n => decide (n ≠ 0)

/-- Expansion of one coverage rule into a set of position ids, following
the `if`/`elif` chain of `_get_covered_position_ids`
(`cost_service.py:383`): `organization` takes all active positions,
`department` joins positions to divisions of that department,
`division` takes the active positions of that division, and `position`
adds the raw referenced id; a rule whose matching scope id is `NULL` (or
`0`, falsy in Python) contributes nothing. -/
def expandRule (db : DB) (cov : SoftwareCoverage) : Finset Nat :=
  if cov.scope_type == "organization" then
    ((db.positions.filter (fun p => p.is_active)).map (fun p => p.id)).toFinset
  else if cov.scope_type == "department" && truthyId cov.department_id then
    ((db.positions.filter (fun p =>
        db.divisions.any (fun d =>
          d.id == p.division_id && some d.department_id == cov.department_id)
        && p.is_active)).map (fun p => p.id)).toFinset
  else if cov.scope_type == "division" && truthyId cov.division_id then
    ((db.positions.filter (fun p =>
        some p.division_id == cov.division_id && p.is_active)).map
      (fun p => p.id)).toFinset
  else if cov.scope_type == "position" && truthyId cov.position_id then
    {cov.position_id.getD 0}
  else ∅

/-- Embedding of `_get_covered_position_ids` (`cost_service.py:383`): the
union, as a set, of the expansions of all coverage rows of the software. -/
def coveredPositionIds (db : DB) (software_id : Nat) : Finset Nat :=
  ((db.coverages.filter (fun c => c.software_id == software_id)).map
    (expandRule db)).foldl (fun a b => a ∪ b) ∅

/-- Embedding of the headcount query inside
`_calculate_tenant_share_for_position` (`cost_service.py:367`):
`coalesce(sum(authorized_count), 0)` over the active positions whose id
lies in the covered set. -/
def tenantHeadcount (db : DB) (software_id : Nat) : Nat :=
  ((db.positions.filter (fun p =>
      decide (p.id ∈ coveredPositionIds db software_id) && p.is_active)).map
    (fun p => p.authorized_count)).sum

/-- Embedding of `_calculate_tenant_share_for_position`
(`cost_service.py:343`).  The `position` argument mirrors the Python
signature; the body never reads it.  Guards mirror the source:
`if not software.total_cost`, empty covered set, zero headcount. -/
def tenantShare (db : DB) (software : Software) (position : Position) : Money :=
  if software.total_cost.getD 0 = 0 then 0
  else if coveredPositionIds db software.id = ∅ then 0
  else if tenantHeadcount db software.id = 0 then 0
  else software.total_cost.getD 0 / (tenantHeadcount db software.id : Money)

/-- One hardware cost line of a position summary (`HardwareCostLine`). -/
structure HardwareCostLine where
  hardware_type_id : Nat
  hardware_type_name : String
  quantity : Nat
  unit_cost : Money
  line_total : Money
  position_total : Money
deriving DecidableEq, Repr

/-- One software cost line of a position summary (`SoftwareCostLine`). -/
structure SoftwareCostLine where
  software_id : Nat
  software_name : String
  license_model : String
  quantity : Nat
  unit_cost : Money
  line_total : Money
  position_total : Money
deriving DecidableEq, Repr

/-- Complete cost breakdown for one position (`PositionCostSummary`). -/
structure PositionCostSummary where
  position_id : Nat
  position_title : String
  position_code : String
  division_id : Nat
  division_name : String
  department_id : Nat
  department_name : String
  authorized_count : Nat
  hardware_lines : List HardwareCostLine
  software_lines : List SoftwareCostLine
  hardware_total_per_person : Money
  software_total_per_person : Money
  total_per_person : Money
  hardware_total : Money
  software_total : Money
  grand_total : Money
deriving DecidableEq, Repr

/-- Aggregated costs for a division (`DivisionCostSummary`). -/
structure DivisionCostSummary where
  division_id : Nat
  division_name : String
  department_id : Nat
  department_name : String
  position_count : Nat
  total_authorized : Nat
  hardware_total : Money
  software_total : Money
  grand_total : Money
deriving DecidableEq, Repr

/-- Aggregated costs for a department (`DepartmentCostSummary`). -/
structure DepartmentCostSummary where
  department_id : Nat
  department_name : String
  division_count : Nat
  position_count : Nat
  total_authorized : Nat
  hardware_total : Money
  software_total : Money
  grand_total : Money
deriving DecidableEq, Repr

/-- Org-wide totals (`OrganizationCostSummary`). -/
structure OrganizationCostSummary where
  department_count : Nat
  division_count : Nat
  position_count : Nat
  total_authorized : Nat
  hardware_total : Money
  software_total : Money
  grand_total : Money
deriving DecidableEq, Repr

/-- List traversal with exception propagation: the Python `for` loops of
the cost service process rows in order and let any raised exception
abort the whole call. -/
def exMap (f : α → Except PyError β) : List α → Except PyError (List β)
  | [] => .ok []
  | a :: l =>
    match f a with
    | .error e => .error e
    | .ok b =>
      match exMap f l with
      | .error e => .error e
      | .ok bs => .ok (b :: bs)

/-- Body of the hardware loop of `calculate_position_cost`
(`cost_service.py:170`).  The first statement of the loop body is
`hw_type = req.hardware_type`; `PositionHardware`
(`app/models/requirement.py`) defines no attribute `hardware_type`
(only `position` and `hardware`), so the access raises
`AttributeError` for every hardware requirement row. -/
def priceHardwareLine (db : DB) (position : Position) (req : PositionHardware) :
    Except PyError HardwareCostLine :=
  Except.error PyError.attributeError

/-- Body of the software loop of `calculate_position_cost`
(`cost_service.py:195`): per-user software is priced at
`quantity × cost_per_license` (with `or ZERO` on the nullable column);
every other license model takes the tenant share, which is already
per-person, so `line_total = unit_cost` there and the quantity is not
used. -/
def priceSoftwareLine (db : DB) (position : Position) (req : PositionSoftware) :
    Except PyError SoftwareCostLine :=
  match db.softwares.find? (fun s => s.id == req.software_id) with
  | none => .error .attributeError
  | some sw =>
    let unit_cost : Money :=
      if sw.license_model == "per_user" then sw.cost_per_license.getD 0
      else tenantShare db sw position
    let line_total : Money :=
      if sw.license_model == "per_user" then (req.quantity : Money) * unit_cost
      else unit_cost
    .ok { software_id := sw.id
          software_name := sw.name
          license_model := sw.license_model
          quantity := req.quantity
          unit_cost := unit_cost
          line_total := line_total
          position_total := line_total * (position.authorized_count : Money) }

/-- Embedding of `calculate_position_cost` (`cost_service.py:130`):
look up the position (raising the not-found `ValueError` if absent),
resolve its division and department, price each hardware and software
requirement row in order, and accumulate the per-person and
headcount-multiplied totals. -/
def calculate_position_cost (db : DB) (position_id : Nat) :
    Except PyError PositionCostSummary :=
  match db.positions.find? (fun p => p.id == position_id) with
  | none =>
    .error (.valueError ("Position ID " ++ toString position_id ++ " not found."))
  | some position =>
    match db.divisions.find? (fun d => d.id == position.division_id) with
    | none => .error .attributeError
    | some division =>
      match db.departments.find? (fun d => d.id == division.department_id) with
      | none => .error .attributeError
      | some department =>
        let hw_reqs := db.position_hardware.filter (fun r => r.position_id == position_id)
        match exMap (priceHardwareLine db position) hw_reqs with
        | .error e => .error e
        | .ok hw_lines =>
          let sw_reqs := db.position_software.filter (fun r => r.position_id == position_id)
          match exMap (priceSoftwareLine db position) sw_reqs with
          | .error e => .error e
          | .ok sw_lines =>
            let hardware_total_per_person := (hw_lines.map (fun l => l.line_total)).sum
            let hardware_total := (hw_lines.map (fun l => l.position_total)).sum
            let software_total_per_person := (sw_lines.map (fun l => l.line_total)).sum
            let software_total := (sw_lines.map (fun l => l.position_total)).sum
            .ok { position_id := position.id
                  position_title := position.position_title
                  position_code := position.position_code
                  division_id := division.id
                  division_name := division.division_name
                  department_id := department.id
                  department_name := department.department_name
                  authorized_count := position.authorized_count
                  hardware_lines := hw_lines
                  software_lines := sw_lines
                  hardware_total_per_person := hardware_total_per_person
                  software_total_per_person := software_total_per_person
                  total_per_person := hardware_total_per_person + software_total_per_person
                  hardware_total := hardware_total
                  software_total := software_total
                  grand_total := hardware_total + software_total }

/-- The query `Position.query.filter_by(division_id=…, is_active=True)`
used by `calculate_division_costs`. -/
def activePositionsOf (db : DB) (division_id : Nat) : List Position :=
  db.positions.filter (fun p => p.division_id == division_id && p.is_active)

/-- The query `Division.query.filter_by(department_id=…, is_active=True)`
used by `calculate_department_costs`. -/
def activeDivisionsOf (db : DB) (department_id : Nat) : List Division :=
  db.divisions.filter (fun d => d.department_id == department_id && d.is_active)

/-- Embedding of `calculate_division_costs` (`cost_service.py:234`):
not-found `ValueError` for a missing division, then a sum of the
position-level results over the division's active positions. -/
def calculate_division_costs (db : DB) (division_id : Nat) :
    Except PyError DivisionCostSummary :=
  match db.divisions.find? (fun d => d.id == division_id) with
  | none =>
    .error (.valueError ("Division ID " ++ toString division_id ++ " not found."))
  | some division =>
    match db.departments.find? (fun d => d.id == division.department_id) with
    | none => .error .attributeError
    | some department =>
      let positions := activePositionsOf db division_id
      match exMap (fun p => calculate_position_cost db p.id) positions with
      | .error e => .error e
      | .ok costs =>
        let hardware_total := (costs.map (fun c => c.hardware_total)).sum
        let software_total := (costs.map (fun c => c.software_total)).sum
        .ok { division_id := division.id
              division_name := division.division_name
              department_id := division.department_id
              department_name := department.department_name
              position_count := positions.length
              total_authorized := (positions.map (fun p => p.authorized_count)).sum
              hardware_total := hardware_total
              software_total := software_total
              grand_total := hardware_total + software_total }

/-- Embedding of `calculate_department_costs` (`cost_service.py:264`):
not-found `ValueError` for a missing department, then a sum of the
division-level results over the department's active divisions. -/
def calculate_department_costs (db : DB) (department_id : Nat) :
    Except PyError DepartmentCostSummary :=
  match db.departments.find? (fun d => d.id == department_id) with
  | none =>
    .error (.valueError ("Department ID " ++ toString department_id ++ " not found."))
  | some department =>
    let divisions := activeDivisionsOf db department_id
    match exMap (fun d => calculate_division_costs db d.id) divisions with
    | .error e => .error e
    | .ok divCosts =>
      let hardware_total := (divCosts.map (fun c => c.hardware_total)).sum
      let software_total := (divCosts.map (fun c => c.software_total)).sum
      .ok { department_id := department.id
            department_name := department.department_name
            division_count := divisions.length
            position_count := (divCosts.map (fun c => c.position_count)).sum
            total_authorized := (divCosts.map (fun c => c.total_authorized)).sum
            hardware_total := hardware_total
            software_total := software_total
            grand_total := hardware_total + software_total }

/-- Embedding of `calculate_organization_costs` (`cost_service.py:295`):
a sum of the department-level results over the active departments. -/
def calculate_organization_costs (db : DB) :
    Except PyError OrganizationCostSummary :=
  let deps := db.departments.filter (fun d => d.is_active)
  match exMap (fun d => calculate_department_costs db d.id) deps with
  | .error e => .error e
  | .ok deptCosts =>
    let hardware_total := (deptCosts.map (fun c => c.hardware_total)).sum
    let software_total := (deptCosts.map (fun c => c.software_total)).sum
    .ok { department_count := deps.length
          division_count := (deptCosts.map (fun c => c.division_count)).sum
          position_count := (deptCosts.map (fun c => c.position_count)).sum
          total_authorized := (deptCosts.map (fun c => c.total_authorized)).sum
          hardware_total := hardware_total
          software_total := software_total
          grand_total := hardware_total + software_total }

/-!
Cost-history recorder: the software part of
`app/services/equipment_service.py` (`create_software`,
`update_software`, `_record_software_cost_history`,
`_close_software_cost_history`) over the table
`budget.software_cost_history` (`app/models/budget.py`).
Timestamps are irrelevant to the single-open invariant, so every call is
modelled at one fixed clock value `0`; what matters is that closing a
record sets `end_date` to a non-`NULL` value.
-/

/-- Row of `budget.software_cost_history`: a cost snapshot with an
effective date and a nullable end date (`NULL` = currently open). -/
structure SoftwareCostHistory where
  software_id : Nat
  cost_per_license : Option Money
  total_cost : Option Money
  effective_date : Nat
  end_date : Option Nat
  changed_by : Option Nat
deriving DecidableEq, Repr

/-- The state the software part of the equipment service mutates: the
`equip.software` table and the `budget.software_cost_history` table. -/
structure EqSt where
  softwares : List Software
  history : List SoftwareCostHistory
deriving DecidableEq, Repr

/-- The keyword arguments of one `update_software(**kwargs)` call, for
the fields the cost-history logic inspects: an outer `none` means the
key is absent from `kwargs`, an inner `none` means the key is present
with value `None`.  `name` stands for the non-cost fields. -/
structure SoftwareUpdate where
  name : Option String
  cost_per_license : Option (Option Money)
  total_cost : Option (Option Money)
deriving DecidableEq, Repr

/-- The `cost_changed` test of `update_software`
(`equipment_service.py:772`): a cost key present in `kwargs` with a
value different from the current one. -/
def cost_changed (sw : Software) (kw : SoftwareUpdate) : Bool :=
  (match kw.cost_per_license with
   | some v => decide (v ≠ sw.cost_per_license)
   | none => false)
  ||
  (match kw.total_cost with
   | some v => decide (v ≠ sw.total_cost)
   | none => false)

/-- The `setattr` loop of `update_software`: apply the present keys. -/
def applyUpdate (sw : Software) (kw : SoftwareUpdate) : Software :=
  { sw with
    name := kw.name.getD sw.name
    cost_per_license := kw.cost_per_license.getD sw.cost_per_license
    total_cost := kw.total_cost.getD sw.total_cost }

/-- Embedding of `_record_software_cost_history`
(`equipment_service.py:845`): insert a new open row snapshotting the
software's current cost fields. -/
def recordHistory (now : Nat) (sw : Software) (history : List SoftwareCostHistory) :
    List SoftwareCostHistory :=
  history ++ [{ software_id := sw.id
                cost_per_license := sw.cost_per_license
                total_cost := sw.total_cost
                effective_date := now
                end_date := none
                changed_by := none }]

/-- Embedding of `_close_software_cost_history`
(`equipment_service.py:859`): set `end_date` on the first row of the
item that has `end_date = NULL`, if any. -/
def closeHistory (now : Nat) (software_id : Nat) :
    List SoftwareCostHistory → List SoftwareCostHistory
  | [] => []
  | h :: t =>
    if h.software_id == software_id && h.end_date == none then
      { h with end_date := some now } :: t
    else
      h :: closeHistory now software_id t

/-- Embedding of `create_software` (`equipment_service.py:688`): insert
the new software row (its primary key is supplied by the caller here, in
place of the autoincrement) and record the initial open history row. -/
def create_software (now : Nat) (st : EqSt) (new_id : Nat) (name : String)
    (license_model : String) (cost_per_license : Option Money)
    (total_cost : Option Money) : EqSt :=
  let sw : Software :=
    { id := new_id
      name := name
      license_model := license_model
      cost_per_license := cost_per_license
      total_cost := total_cost
      is_active := true }
  { softwares := st.softwares ++ [sw]
    history := recordHistory now sw st.history }

/-- Embedding of `update_software` (`equipment_service.py:750`):
not-found `ValueError` if the id is absent; otherwise compute
`cost_changed` against the current values, apply the keyword arguments,
and, only when a cost field changed, close the open history row and
record a new one snapshotting the updated values. -/
def update_software (now : Nat) (st : EqSt) (software_id : Nat)
    (kw : SoftwareUpdate) : Except PyError EqSt :=
  match st.softwares.find? (fun s => s.id == software_id) with
  | none =>
    .error (.valueError ("Software ID " ++ toString software_id ++ " not found."))
  | some sw =>
    let changed := cost_changed sw kw
    let sw' := applyUpdate sw kw
    let softwares' := st.softwares.map (fun s => if s.id == software_id then sw' else s)
    let history' :=
      if changed then recordHistory now sw' (closeHistory now software_id st.history)
      else st.history
    .ok { softwares := softwares', history := history' }

/-- A sequence of `update_software` calls on one item, each aborting the
run when it raises. -/
def runUpdates (st : EqSt) (software_id : Nat) :
    List SoftwareUpdate → Except PyError EqSt
  | [] => .ok st
  | kw :: rest =>
    match update_software 0 st software_id kw with
    | .error e => .error e
    | .ok st' => runUpdates st' software_id rest

/-- Whether one `update_software` call on the current state is a
cost-changing update (the `cost_changed` test against the item's current
field values). -/
def costChangedNow (st : EqSt) (software_id : Nat) (kw : SoftwareUpdate) : Bool :=
  match st.softwares.find? (fun s => s.id == software_id) with
  | some sw => cost_changed sw kw
  | none => false

/-- Number of cost-changing updates along a run of `update_software`
calls (the test is dynamic: it compares against the evolving state). -/
def countCostChanging (st : EqSt) (software_id : Nat) :
    List SoftwareUpdate → Nat
  | [] => 0
  | kw :: rest =>
    match update_software 0 st software_id kw with
    | .error _ => 0
    | .ok st' =>
      (if costChangedNow st software_id kw then 1 else 0)
        + countCostChanging st' software_id rest

/-- Number of open (`end_date = NULL`) history rows of one item. -/
def openRows (history : List SoftwareCostHistory) (software_id : Nat) : Nat :=
  history.countP (fun h => h.software_id == software_id && h.end_date == none)

/-- Number of closed (`end_date` non-`NULL`) history rows of one item. -/
def closedRows (history : List SoftwareCostHistory) (software_id : Nat) : Nat :=
  history.countP (fun h => h.software_id == software_id && h.end_date.isSome)

/-- Spec-side reading of the headcount of one covered position id: the
`authorized_count` of the active position with that id, `0` when the id
matches no active position. -/
def authorizedOf (db : DB) (pid : Nat) : Nat :=
  match db.positions.find? (fun p => p.id == pid) with
  | some p => if p.is_active then p.authorized_count else 0
  | none => 0

/-- A database extended with one extra coverage rule. -/
def addCoverage (db : DB) (cov : SoftwareCoverage) : DB :=
  { db with coverages := db.coverages ++ [cov] }

/-!
Concrete databases used by the examples of the specification and by the
witnesses: built directly from the scenarios of spec §8 and of
`tests/test_services/test_cost_service.py`.
-/

/-- A database with no rows at all. -/
def emptyDb : DB :=
  { departments := [], divisions := [], positions := [], hardware_types := []
    hardware_items := [], softwares := [], coverages := []
    position_hardware := [], position_software := [] }

/-- Tenant-allocation example of spec §8: one tenant item with
`total_cost = 9000`, one organization-scope rule, three active positions
with authorized counts 10, 20, 70 (the 20-seat one holds the
requirement and sits alone in division 2). -/
def exDbT : DB :=
  { departments := [{ id := 1, department_name := "Public Works", is_active := true }]
    divisions :=
      [{ id := 1, department_id := 1, division_name := "Water", is_active := true },
       { id := 2, department_id := 1, division_name := "Streets", is_active := true }]
    positions :=
      [{ id := 1, division_id := 1, position_code := "P1", position_title := "Engineer",
         authorized_count := 10, is_active := true },
       { id := 2, division_id := 2, position_code := "P2", position_title := "Analyst",
         authorized_count := 20, is_active := true },
       { id := 3, division_id := 1, position_code := "P3", position_title := "Technician",
         authorized_count := 70, is_active := true }]
    hardware_types := []
    hardware_items := []
    softwares :=
      [{ id := 1, name := "GIS Suite", license_model := "tenant",
         cost_per_license := none, total_cost := some 9000, is_active := true }]
    coverages :=
      [{ software_id := 1, scope_type := "organization",
         department_id := none, division_id := none, position_id := none }]
    position_hardware := []
    position_software := [{ position_id := 2, software_id := 1, quantity := 1 }] }

/-- The second, overlapping coverage rule of the dedup example: scoped to
division 2, which contains only the 20-seat position. -/
def covDiv2 : SoftwareCoverage :=
  { software_id := 1, scope_type := "division",
    department_id := none, division_id := some 2, position_id := none }

/-- Overlapping-coverage example of spec §8: `exDbT` with the redundant
division-scope rule added. -/
def exDbT2 : DB := addCoverage exDbT covDiv2

/-- Database for the uncovered-position scenario: the tenant item is
covered by division 1 only (headcount 10), while the position holding
the requirement sits in division 2. -/
def exDb9 : DB :=
  { departments := [{ id := 1, department_name := "Operations", is_active := true }]
    divisions :=
      [{ id := 1, department_id := 1, division_name := "A", is_active := true },
       { id := 2, department_id := 1, division_name := "B", is_active := true }]
    positions :=
      [{ id := 1, division_id := 1, position_code := "PA", position_title := "Lead",
         authorized_count := 10, is_active := true },
       { id := 2, division_id := 2, position_code := "PB", position_title := "Clerk",
         authorized_count := 5, is_active := true }]
    hardware_types := []
    hardware_items := []
    softwares :=
      [{ id := 7, name := "Records System", license_model := "tenant",
         cost_per_license := none, total_cost := some 900, is_active := true }]
    coverages :=
      [{ software_id := 7, scope_type := "division",
         department_id := none, division_id := some 1, position_id := none }]
    position_hardware := []
    position_software := [{ position_id := 2, software_id := 7, quantity := 1 }] }

/-- Database for the rollup example: one active division with one active
position (per-user software at 200, two seats) and one inactive
position, plus one inactive division holding an active position. -/
def exDb4 : DB :=
  { departments := [{ id := 1, department_name := "D", is_active := true }]
    divisions :=
      [{ id := 1, department_id := 1, division_name := "DV1", is_active := true },
       { id := 4, department_id := 1, division_name := "DV4", is_active := false }]
    positions :=
      [{ id := 1, division_id := 1, position_code := "C1", position_title := "Clerk",
         authorized_count := 2, is_active := true },
       { id := 6, division_id := 1, position_code := "C6", position_title := "Temp",
         authorized_count := 3, is_active := false },
       { id := 5, division_id := 4, position_code := "C5", position_title := "Ghost",
         authorized_count := 99, is_active := true }]
    hardware_types := []
    hardware_items := []
    softwares :=
      [{ id := 2, name := "Office", license_model := "per_user",
         cost_per_license := some 200, total_cost := none, is_active := true }]
    coverages := []
    position_hardware := []
    position_software := [{ position_id := 1, software_id := 2, quantity := 1 }] }

/-- Database for the zero-authorized-count scenario: two active
positions with `authorized_count = 0`, one holding a hardware
requirement (quantity 2 on the 1200-cost item), the other a per-user
software requirement (quantity 1 at 200). -/
def exDb5 : DB :=
  { departments := [{ id := 1, department_name := "D", is_active := true }]
    divisions := [{ id := 1, department_id := 1, division_name := "DV", is_active := true }]
    positions :=
      [{ id := 7, division_id := 1, position_code := "Z7", position_title := "Frozen A",
         authorized_count := 0, is_active := true },
       { id := 8, division_id := 1, position_code := "Z8", position_title := "Frozen B",
         authorized_count := 0, is_active := true }]
    hardware_types := [{ id := 1, type_name := "Laptop", estimated_cost := 0, is_active := true }]
    hardware_items :=
      [{ id := 1, hardware_type_id := 1, name := "Standard Laptop",
         estimated_cost := 1200, is_active := true }]
    softwares :=
      [{ id := 2, name := "Office", license_model := "per_user",
         cost_per_license := some 200, total_cost := none, is_active := true }]
    coverages := []
    position_hardware := [{ position_id := 7, hardware_id := 1, quantity := 2 }]
    position_software := [{ position_id := 8, software_id := 2, quantity := 1 }] }

/-- The fixture of `tests/test_services/test_cost_service.py`: hardware
type with `estimated_cost = 0`, hardware item with
`estimated_cost = 1200`, a requirement with quantity 2 on a position
with `authorized_count = 3` (the repository's own test expects the line
to price at 2400 per person and 7200 for the position). -/
def exDb6 : DB :=
  { departments := [{ id := 1, department_name := "Test Department", is_active := true }]
    divisions := [{ id := 1, department_id := 1, division_name := "Test Division", is_active := true }]
    positions :=
      [{ id := 3, division_id := 1, position_code := "TEST_POS",
         position_title := "Test Position", authorized_count := 3, is_active := true }]
    hardware_types :=
      [{ id := 1, type_name := "Test Laptop Type", estimated_cost := 0, is_active := true }]
    hardware_items :=
      [{ id := 1, hardware_type_id := 1, name := "Standard Test Laptop",
         estimated_cost := 1200, is_active := true }]
    softwares := []
    coverages := []
    position_hardware := [{ position_id := 3, hardware_id := 1, quantity := 2 }]
    position_software := [] }

/-- Database for the degenerate-allocation scenario: one position holding
both a hardware requirement and a requirement on a tenant item with a
nonzero `total_cost` but zero coverage rules. -/
def exDb7 : DB :=
  { departments := [{ id := 1, department_name := "D", is_active := true }]
    divisions := [{ id := 1, department_id := 1, division_name := "DV", is_active := true }]
    positions :=
      [{ id := 9, division_id := 1, position_code := "P9", position_title := "Mixed",
         authorized_count := 4, is_active := true }]
    hardware_types := [{ id := 1, type_name := "Laptop", estimated_cost := 0, is_active := true }]
    hardware_items :=
      [{ id := 1, hardware_type_id := 1, name := "Standard Laptop",
         estimated_cost := 1200, is_active := true }]
    softwares :=
      [{ id := 5, name := "Tenant Zero", license_model := "tenant",
         cost_per_license := none, total_cost := some 500, is_active := true }]
    coverages := []
    position_hardware := [{ position_id := 9, hardware_id := 1, quantity := 1 }]
    position_software := [{ position_id := 9, software_id := 5, quantity := 1 }] }

/-- Database for the inactive-position scenario: two existing but
inactive positions in one active division, one with a hardware
requirement, the other with a per-user software requirement (200 per
license, quantity 2, four seats). -/
def exDb10 : DB :=
  { departments := [{ id := 1, department_name := "D", is_active := true }]
    divisions := [{ id := 1, department_id := 1, division_name := "DV", is_active := true }]
    positions :=
      [{ id := 10, division_id := 1, position_code := "X10",
         position_title := "Inactive HW", authorized_count := 3, is_active := false },
       { id := 11, division_id := 1, position_code := "X11",
         position_title := "Inactive SW", authorized_count := 4, is_active := false }]
    hardware_types := [{ id := 1, type_name := "Laptop", estimated_cost := 0, is_active := true }]
    hardware_items :=
      [{ id := 1, hardware_type_id := 1, name := "Standard Laptop",
         estimated_cost := 1200, is_active := true }]
    softwares :=
      [{ id := 2, name := "Office", license_model := "per_user",
         cost_per_license := some 200, total_cost := none, is_active := true }]
    coverages := []
    position_hardware := [{ position_id := 10, hardware_id := 1, quantity := 1 }]
    position_software := [{ position_id := 11, software_id := 2, quantity := 2 }] }

/-!
General lemmas about the embedding, shared by the claim theorems.
-/

/-- Every element processed by a successful `exMap` run has a successful
image in the output list. -/
theorem exMap_ok_mem {α β : Type} {f : α → Except PyError β} :
    ∀ {xs : List α} {ys : List β}, exMap f xs = .ok ys →
      ∀ {x : α}, x ∈ xs → ∃ y, y ∈ ys ∧ f x = .ok y := by
  intro xs
  induction xs with
  | nil =>
    intro ys _ x hx
    cases hx
  | cons a l ih =>
    intro ys h x hx
    unfold exMap at h
    cases hfa : f a with
    | error e => rw [hfa] at h; cases h
    | ok b =>
      rw [hfa] at h
      cases hl : exMap f l with
      | error e => rw [hl] at h; cases h
      | ok bs =>
        rw [hl] at h
        cases h
        rcases List.mem_cons.mp hx with rfl | hx
        · exact ⟨b, List.mem_cons_self _ _, hfa⟩
        · obtain ⟨y, hy, hfy⟩ := ih hl hx
          exact ⟨y, List.mem_cons_of_mem _ hy, hfy⟩

/-- Destructuring a successful `calculate_position_cost` call: the
position row it found, and the software lines it produced. -/
theorem position_of_ok {db : DB} {pid : Nat} {S : PositionCostSummary}
    (h : calculate_position_cost db pid = .ok S) :
    ∃ position, db.positions.find? (fun p => p.id == pid) = some position ∧
      S.authorized_count = position.authorized_count ∧
      ∃ sw_lines, exMap (priceSoftwareLine db position)
          (db.position_software.filter (fun r => r.position_id == pid)) = .ok sw_lines ∧
        S.software_lines = sw_lines := by
  unfold calculate_position_cost at h
  split at h
  · exact absurd h (by simp)
  rename_i position hp
  split at h
  · exact absurd h (by simp)
  rename_i division hd
  split at h
  · exact absurd h (by simp)
  rename_i department hdep
  dsimp only at h
  split at h
  · exact absurd h (by simp)
  rename_i hw_lines hhw
  split at h
  · exact absurd h (by simp)
  rename_i sw_lines hsw
  cases h
  exact ⟨position, hp, rfl, sw_lines, hsw, rfl⟩

/-- When the resolved headcount is nonzero, the tenant share is exactly
the flat total cost divided by the headcount. -/
theorem tenantShare_eq_div {db : DB} {sw : Software} (position : Position)
    (hhc : tenantHeadcount db sw.id ≠ 0) :
    tenantShare db sw position =
      sw.total_cost.getD 0 / (tenantHeadcount db sw.id : Money) := by
  unfold tenantShare
  by_cases h0 : sw.total_cost.getD 0 = 0
  · rw [if_pos h0, h0, zero_div]
  · rw [if_neg h0]
    have hne : ¬ coveredPositionIds db sw.id = ∅ := by
      intro hemp
      apply hhc
      unfold tenantHeadcount
      simp [hemp]
    rw [if_neg hne, if_neg hhc]

/-- An item with no coverage rows resolves to the share `0`. -/
theorem tenantShare_zero_coverage {db : DB} {sw : Software} (position : Position)
    (hcov : db.coverages.filter (fun c => c.software_id == sw.id) = []) :
    tenantShare db sw position = 0 := by
  unfold tenantShare
  by_cases h0 : sw.total_cost.getD 0 = 0
  · rw [if_pos h0]
  · rw [if_neg h0]
    have hemp : coveredPositionIds db sw.id = ∅ := by
      unfold coveredPositionIds
      rw [hcov]
      rfl
    rw [if_pos hemp]

/-- An item whose resolved headcount is zero gets the share `0`. -/
theorem tenantShare_zero_headcount {db : DB} {sw : Software} (position : Position)
    (hhc : tenantHeadcount db sw.id = 0) :
    tenantShare db sw position = 0 := by
  unfold tenantShare
  split_ifs <;> rfl

/-- The software line that a successful position calculation produces for
a requirement on a non-per-user (tenant) item: present in the summary,
priced at the tenant share per person and at share × authorized count
for the position. -/
theorem tenant_line_mem {db : DB} {pid : Nat} {S : PositionCostSummary}
    (h : calculate_position_cost db pid = .ok S)
    {req : PositionSoftware}
    (hreq : req ∈ db.position_software.filter (fun r => r.position_id == pid))
    {sw : Software}
    (hsw : db.softwares.find? (fun s => s.id == req.software_id) = some sw)
    (hlm : sw.license_model ≠ "per_user") :
    ∃ position, db.positions.find? (fun p => p.id == pid) = some position ∧
      S.authorized_count = position.authorized_count ∧
      ∃ line, line ∈ S.software_lines ∧ line.software_id = sw.id ∧
        line.line_total = tenantShare db sw position ∧
        line.position_total = line.line_total * (position.authorized_count : Money) := by
  obtain ⟨position, hp, hauth, sw_lines, hmap, hlines⟩ := position_of_ok h
  obtain ⟨line, hline, hfl⟩ := exMap_ok_mem hmap hreq
  unfold priceSoftwareLine at hfl
  rw [hsw] at hfl
  have hlm' : (sw.license_model == "per_user") = false := by
    simpa using hlm
  dsimp only at hfl
  rw [hlm'] at hfl
  simp only [Bool.false_eq_true, if_false] at hfl
  cases hfl
  rw [hlines]
  exact ⟨position, hp, hauth, _, hline, rfl, rfl, rfl⟩

/-- Headcount contribution of a single position id inside a list of
position rows: the `authorized_count` of the (first) active row with
that id, `0` otherwise. -/
def authInList (ps : List Position) (pid : Nat) : Nat :=
  match ps.find? (fun p => p.id == pid) with
  | some p => if p.is_active then p.authorized_count else 0
  | none => 0

theorem authorizedOf_eq_authInList (db : DB) (pid : Nat) :
    authorizedOf db pid = authInList db.positions pid := rfl

theorem authInList_cons (p : Position) (t : List Position) (pid : Nat) :
    authInList (p :: t) pid =
      if pid = p.id then (if p.is_active then p.authorized_count else 0)
      else authInList t pid := by
  unfold authInList
  by_cases hpid : pid = p.id
  · have : (p.id == pid) = true := by simp [hpid]
    simp [List.find?_cons, this, hpid]
  · have : (p.id == pid) = false := by
      simp
      exact fun c => hpid c.symm
    simp [List.find?_cons, this, hpid]

theorem authInList_eq_zero_of_not_mem (t : List Position) (pid : Nat)
    (h : pid ∉ t.map (fun p => p.id)) : authInList t pid = 0 := by
  unfold authInList
  have : t.find? (fun p => p.id == pid) = none := by
    rw [List.find?_eq_none]
    intro q hq
    simp only [beq_iff_eq]
    intro hqid
    exact h (by rw [← hqid]; exact List.mem_map_of_mem (fun p => p.id) hq)
  rw [this]

/-- Summing `authorized_count` over the rows whose id lies in a finite
set `S` of ids (each row counted by the list filter) agrees with summing
the per-id contribution over the set `S` itself — each id exactly once —
provided the rows carry distinct ids, as a primary-key column does. -/
theorem sum_filter_eq_sum_over_finset :
    ∀ (ps : List Position) (S : Finset Nat),
      (ps.map (fun p => p.id)).Nodup →
      ((ps.filter (fun p => decide (p.id ∈ S) && p.is_active)).map
          (fun p => p.authorized_count)).sum
        = ∑ pid in S, authInList ps pid := by
  intro ps
  induction ps with
  | nil =>
    intro S _
    simp [authInList]
  | cons p t ih =>
    intro S hnd
    simp only [List.map_cons, List.nodup_cons] at hnd
    obtain ⟨hpid, hnd⟩ := hnd
    have hzero : authInList t p.id = 0 := authInList_eq_zero_of_not_mem t p.id hpid
    have hpt : ∀ pid, authInList (p :: t) pid =
        (if pid = p.id then (if p.is_active then p.authorized_count else 0) else 0)
          + authInList t pid := by
      intro pid
      rw [authInList_cons]
      by_cases hc : pid = p.id
      · rw [if_pos hc, if_pos hc, hc, hzero, Nat.add_zero]
      · rw [if_neg hc, if_neg hc, Nat.zero_add]
    calc ((List.filter (fun q => decide (q.id ∈ S) && q.is_active) (p :: t)).map
            (fun q => q.authorized_count)).sum
        = (if p.id ∈ S then (if p.is_active then p.authorized_count else 0) else 0)
            + ((t.filter (fun q => decide (q.id ∈ S) && q.is_active)).map
                (fun q => q.authorized_count)).sum := by
          by_cases hmem : p.id ∈ S <;> by_cases hact : p.is_active
            <;> simp [List.filter_cons, hmem, hact]
      _ = (if p.id ∈ S then (if p.is_active then p.authorized_count else 0) else 0)
            + ∑ pid in S, authInList t pid := by rw [ih S hnd]
      _ = (∑ pid in S, if pid = p.id then (if p.is_active then p.authorized_count else 0) else 0)
            + ∑ pid in S, authInList t pid := by
          rw [Finset.sum_ite_eq' S p.id
            (fun _ => if p.is_active then p.authorized_count else 0)]
      _ = ∑ pid in S, authInList (p :: t) pid := by
          rw [← Finset.sum_add_distrib]
          exact Finset.sum_congr rfl (fun pid _ => (hpt pid).symm)

/-- Appending one extra coverage row for the item unions its expansion
into the covered set. -/
theorem coveredPositionIds_addCoverage (db : DB) (sid : Nat)
    (cov : SoftwareCoverage) (hsw : cov.software_id = sid) :
    coveredPositionIds (addCoverage db cov) sid =
      coveredPositionIds db sid ∪ expandRule db cov := by
  have hexp : expandRule (addCoverage db cov) = expandRule db := rfl
  unfold coveredPositionIds addCoverage
  simp only [hexp]
  have hfilter : (db.coverages ++ [cov]).filter (fun c => c.software_id == sid)
      = db.coverages.filter (fun c => c.software_id == sid) ++ [cov] := by
    rw [List.filter_append]
    simp [List.filter_cons, hsw]
  simp only [hfilter, List.map_append, List.foldl_append, List.map_cons, List.map_nil]
  rfl

/-- The positions table is untouched by adding a coverage row, so the
headcount only depends on the covered set, which a redundant
(already-covered) rule leaves unchanged. -/
theorem tenantHeadcount_addCoverage_subset (db : DB) (sid : Nat)
    (cov : SoftwareCoverage) (hsw : cov.software_id = sid)
    (hsub : expandRule db cov ⊆ coveredPositionIds db sid) :
    tenantHeadcount (addCoverage db cov) sid = tenantHeadcount db sid := by
  have hcov : coveredPositionIds (addCoverage db cov) sid = coveredPositionIds db sid := by
    rw [coveredPositionIds_addCoverage db sid cov hsw]
    exact Finset.union_eq_left.mpr hsub
  unfold tenantHeadcount
  simp only [hcov]
  rfl

/-- Closing the open row: when the item has at least one open row, the
first one becomes closed — one open row fewer, one closed row more. -/
theorem closeHistory_counts (now software_id : Nat) :
    ∀ (l : List SoftwareCostHistory), 0 < openRows l software_id →
      openRows (closeHistory now software_id l) software_id
          = openRows l software_id - 1 ∧
      closedRows (closeHistory now software_id l) software_id
          = closedRows l software_id + 1 := by
  intro l
  induction l with
  | nil =>
    intro h
    simp [openRows] at h
  | cons a t ih =>
    intro hpos
    by_cases ha : (a.software_id == software_id && a.end_date == none) = true
    · have hsid : (a.software_id == software_id) = true := (Bool.and_eq_true _ _ |>.mp ha).1
      have hend : a.end_date = none := by
        have := (Bool.and_eq_true _ _ |>.mp ha).2
        simpa using this
      unfold closeHistory
      rw [if_pos ha]
      unfold openRows closedRows at *
      simp only [List.countP_cons, hsid, hend] at *
      simp
    · unfold closeHistory
      rw [if_neg (by simpa using ha)]
      unfold openRows closedRows at *
      simp only [List.countP_cons] at hpos ⊢
      have hfalse : (a.software_id == software_id && a.end_date == none) = false := by
        simpa using ha
      rw [hfalse] at hpos ⊢
      simp only [Bool.false_eq_true, if_false, Nat.add_zero] at hpos ⊢
      obtain ⟨ho, hc⟩ := ih hpos
      constructor
      · rw [ho]
      · rw [hc]
        exact Nat.add_right_comm _ 1 _

/-- One successful `update_software` call keeps exactly one open row and
adds one closed row exactly when it was a cost-changing update. -/
theorem update_software_counts {st : EqSt} {software_id : Nat}
    {kw : SoftwareUpdate} {st' : EqSt}
    (h : update_software 0 st software_id kw = .ok st')
    (hopen : openRows st.history software_id = 1) :
    openRows st'.history software_id = 1 ∧
    closedRows st'.history software_id =
      closedRows st.history software_id
        + (if costChangedNow st software_id kw then 1 else 0) := by
  unfold update_software at h
  cases hf : st.softwares.find? (fun s => s.id == software_id) with
  | none => rw [hf] at h; exact absurd h (by simp)
  | some sw =>
    rw [hf] at h
    dsimp only at h
    have hswid : sw.id = software_id := by
      have := List.find?_some hf
      simpa using this
    have hcc : costChangedNow st software_id kw = cost_changed sw kw := by
      unfold costChangedNow
      rw [hf]
    cases h
    rw [hcc]
    by_cases hch : cost_changed sw kw
    · obtain ⟨ho, hc⟩ := closeHistory_counts 0 software_id st.history (by omega)
      rw [if_pos hch, if_pos hch]
      have hrowid : (applyUpdate sw kw).id = software_id := by
        unfold applyUpdate
        simpa using hswid
      constructor
      · unfold openRows recordHistory at *
        rw [List.countP_append]
        simp only [List.countP_cons, List.countP_nil, hrowid]
        simp only [beq_self_eq_true, Bool.and_true, Bool.true_and]
        rw [ho, hopen]
        simp
      · unfold closedRows recordHistory at *
        rw [List.countP_append]
        simp only [List.countP_cons, List.countP_nil, hrowid]
        simp only [beq_self_eq_true, Bool.and_true, Bool.true_and]
        rw [hc]
        simp
    · rw [if_neg hch, if_neg hch]
      exact ⟨hopen, rfl⟩

/-- Along a successful run of updates, the single-open invariant is
preserved and the closed-row count grows by exactly the number of
cost-changing updates in the run. -/
theorem runUpdates_counts {software_id : Nat} :
    ∀ (ops : List SoftwareUpdate) (st stN : EqSt),
      openRows st.history software_id = 1 →
      runUpdates st software_id ops = .ok stN →
      openRows stN.history software_id = 1 ∧
      closedRows stN.history software_id =
        closedRows st.history software_id + countCostChanging st software_id ops := by
  intro ops
  induction ops with
  | nil =>
    intro st stN h hr
    cases hr
    exact ⟨h, by simp [countCostChanging]⟩
  | cons kw rest ih =>
    intro st stN hopen hr
    unfold runUpdates at hr
    cases hu : update_software 0 st software_id kw with
    | error e => rw [hu] at hr; exact absurd hr (by simp)
    | ok st' =>
      rw [hu] at hr
      obtain ⟨ho', hc'⟩ := update_software_counts hu hopen
      obtain ⟨hoN, hcN⟩ := ih st' stN ho' hr
      refine ⟨hoN, ?_⟩
      unfold countCostChanging
      rw [hu]
      dsimp only
      rw [hcN, hc']
      by_cases hch : costChangedNow st software_id kw
        <;> simp [hch] <;> omega

/-- Creating a software item on a state with no history rows for its id
leaves exactly one open and zero closed rows for that id. -/
theorem create_software_counts (st0 : EqSt) (new_id : Nat) (name lm : String)
    (cpl tc : Option Money)
    (hfresh : openRows st0.history new_id = 0 ∧ closedRows st0.history new_id = 0) :
    openRows (create_software 0 st0 new_id name lm cpl tc).history new_id = 1 ∧
    closedRows (create_software 0 st0 new_id name lm cpl tc).history new_id = 0 := by
  obtain ⟨ho, hc⟩ := hfresh
  unfold create_software recordHistory
  unfold openRows closedRows at *
  constructor
  · rw [List.countP_append, ho]
    simp
  · rw [List.countP_append, hc]
    simp

/-!
Claim theorems.
-/

/-- C1: the resolved covered headcount of a tenant item is obtained by
first unioning the position-id sets of all its coverage rules into one
set and then summing `authorized_count` over that final set (each id
contributing exactly once); consequently a rule whose expansion is
already covered changes nothing, and in the spec's example the covered
headcount of the 10/20/70 organization-scope item stays 100 after the
overlapping division-scope rule is added, not 120. -/
theorem c1_covered_headcount_dedup :
    (∀ (db : DB) (sid : Nat), (db.positions.map (fun p => p.id)).Nodup →
        tenantHeadcount db sid
          = ∑ pid in coveredPositionIds db sid, authorizedOf db pid) ∧
    (∀ (db : DB) (sid : Nat) (cov : SoftwareCoverage), cov.software_id = sid →
        expandRule db cov ⊆ coveredPositionIds db sid →
        tenantHeadcount (addCoverage db cov) sid = tenantHeadcount db sid) ∧
    tenantHeadcount exDbT 1 = 100 ∧ tenantHeadcount exDbT2 1 = 100 := by
  refine ⟨?_, ?_, ?_, ?_⟩
  · intro db sid hnd
    simp only [authorizedOf_eq_authInList]
    exact sum_filter_eq_sum_over_finset db.positions (coveredPositionIds db sid) hnd
  · intro db sid cov h1 h2
    exact tenantHeadcount_addCoverage_subset db sid cov h1 h2
  · decide
  · decide

/-- Witness for C1 at the spec's overlapping-coverage database. -/
theorem c1_witness :
    (tenantHeadcount exDbT2 1
      = ∑ pid in coveredPositionIds exDbT2 1, authorizedOf exDbT2 pid) ∧
    tenantHeadcount (addCoverage exDbT covDiv2) 1 = tenantHeadcount exDbT 1 :=
  ⟨c1_covered_headcount_dedup.1 exDbT2 1 (by decide),
   c1_covered_headcount_dedup.2.1 exDbT 1 covDiv2 (by decide) (by decide)⟩

set_option maxRecDepth 8000 in
/-- C2: in a successful position calculation, a requirement line on a
tenant item with nonzero resolved headcount is priced per person at
exactly `total_cost / covered headcount` — the requirement's quantity
never multiplies it — and the line's position total is that per-seat
share times the position's authorized count; on the spec's example
(9000 over headcount 100, position with 20 seats) the line is 90 per
seat and 1800 for the position. -/
theorem c2_tenant_pricing :
    (∀ (db : DB) (pid : Nat) (S : PositionCostSummary),
        calculate_position_cost db pid = .ok S →
        ∀ req ∈ db.position_software.filter (fun r => r.position_id == pid),
        ∀ sw, db.softwares.find? (fun s => s.id == req.software_id) = some sw →
          sw.license_model = "tenant" →
          tenantHeadcount db sw.id ≠ 0 →
          ∃ line ∈ S.software_lines, line.software_id = sw.id ∧
            line.line_total = sw.total_cost.getD 0 / (tenantHeadcount db sw.id : Money) ∧
            line.position_total = line.line_total * (S.authorized_count : Money)) ∧
    (calculate_position_cost exDbT 2).toOption.map
        (fun s => s.software_lines.map (fun l => (l.unit_cost, l.line_total, l.position_total)))
      = some [(90, 90, 1800)] := by
  constructor
  · intro db pid S h req hreq sw hsw hlm hhc
    have hlm' : sw.license_model ≠ "per_user" := by
      rw [hlm]
      decide
    obtain ⟨position, hp, hauth, line, hline, hid, hlt, hpt⟩ :=
      tenant_line_mem h hreq hsw hlm'
    refine ⟨line, hline, hid, ?_, ?_⟩
    · rw [hlt, tenantShare_eq_div position hhc]
    · rw [hauth]
      exact hpt
  · with_unfolding_all decide

/-- The summary the position calculation returns on the spec's tenant
example database. -/
def exS2T : PositionCostSummary :=
  { position_id := 2, position_title := "Analyst", position_code := "P2"
    division_id := 2, division_name := "Streets"
    department_id := 1, department_name := "Public Works"
    authorized_count := 20
    hardware_lines := []
    software_lines :=
      [{ software_id := 1, software_name := "GIS Suite", license_model := "tenant",
         quantity := 1, unit_cost := 90, line_total := 90, position_total := 1800 }]
    hardware_total_per_person := 0, software_total_per_person := 90
    total_per_person := 90, hardware_total := 0, software_total := 1800
    grand_total := 1800 }

set_option maxRecDepth 8000 in
/-- Witness for C2 at the spec's tenant-example database. -/
theorem c2_witness :
    ∃ line ∈ exS2T.software_lines,
      line.software_id = (1 : Nat) ∧
      line.line_total = (Option.some (9000 : Money)).getD 0 / ((tenantHeadcount exDbT 1 : Nat) : Money) ∧
      line.position_total = line.line_total * ((exS2T.authorized_count : Nat) : Money) := by
  have h := c2_tenant_pricing.1 exDbT 2 exS2T (by with_unfolding_all decide)
    { position_id := 2, software_id := 1, quantity := 1 } (by decide)
    { id := 1, name := "GIS Suite", license_model := "tenant",
      cost_per_license := none, total_cost := some 9000, is_active := true }
    (by decide) rfl (by decide)
  exact h

/-- C3: starting from `create_software` (which inserts one open history
row) and after any sequence of updates of which `k = N − 1` are
cost-changing (so `N` total price writes counting the creation), the
item's cost history holds exactly one open row (`end_date = NULL`) and
exactly `N − 1` closed rows; moreover an update that does not change a
cost field inserts nothing, and a cost-changing update closes the
previously open row and appends one new open row. -/
theorem c3_history_single_open :
    (∀ (st0 : EqSt) (new_id : Nat) (name lm : String) (cpl tc : Option Money)
        (ops : List SoftwareUpdate) (stN : EqSt),
        openRows st0.history new_id = 0 →
        closedRows st0.history new_id = 0 →
        runUpdates (create_software 0 st0 new_id name lm cpl tc) new_id ops = .ok stN →
        openRows stN.history new_id = 1 ∧
        closedRows stN.history new_id
          = countCostChanging (create_software 0 st0 new_id name lm cpl tc) new_id ops) ∧
    (∀ (st : EqSt) (software_id : Nat) (kw : SoftwareUpdate) (st' : EqSt),
        update_software 0 st software_id kw = .ok st' →
        (costChangedNow st software_id kw = false → st'.history = st.history) ∧
        (costChangedNow st software_id kw = true →
          ∃ row, st'.history = closeHistory 0 software_id st.history ++ [row] ∧
            row.software_id = software_id ∧ row.end_date = none)) := by
  constructor
  · intro st0 new_id name lm cpl tc ops stN hopen0 hclosed0 hrun
    obtain ⟨ho1, hc1⟩ :=
      create_software_counts st0 new_id name lm cpl tc ⟨hopen0, hclosed0⟩
    obtain ⟨hoN, hcN⟩ := runUpdates_counts ops _ stN ho1 hrun
    rw [hc1, Nat.zero_add] at hcN
    exact ⟨hoN, hcN⟩
  · intro st software_id kw st' h
    unfold update_software at h
    cases hf : st.softwares.find? (fun s => s.id == software_id) with
    | none => rw [hf] at h; exact absurd h (by simp)
    | some sw =>
      rw [hf] at h
      dsimp only at h
      have hswid : sw.id = software_id := by
        have := List.find?_some hf
        simpa using this
      have hcc : costChangedNow st software_id kw = cost_changed sw kw := by
        unfold costChangedNow
        rw [hf]
      cases h
      constructor
      · intro hfneg
        rw [hcc] at hfneg
        simp [hfneg]
      · intro hfpos
        rw [hcc] at hfpos
        refine ⟨{ software_id := (applyUpdate sw kw).id
                  cost_per_license := (applyUpdate sw kw).cost_per_license
                  total_cost := (applyUpdate sw kw).total_cost
                  effective_date := 0, end_date := none, changed_by := none },
                ?_, ?_, rfl⟩
        · simp [hfpos, recordHistory]
        · exact hswid

/-- The state after creating item 1 at `cost_per_license = 200` and then
running a cost change to 300, a pure rename, a no-op cost write of the
same 300, and a `total_cost` change to 50 — two cost-changing updates,
three price writes in all. -/
def exSt3 : EqSt :=
  { softwares :=
      [{ id := 1, name := "B", license_model := "per_user",
         cost_per_license := some 300, total_cost := some 50, is_active := true }]
    history :=
      [{ software_id := 1, cost_per_license := some 200, total_cost := none,
         effective_date := 0, end_date := some 0, changed_by := none },
       { software_id := 1, cost_per_license := some 300, total_cost := none,
         effective_date := 0, end_date := some 0, changed_by := none },
       { software_id := 1, cost_per_license := some 300, total_cost := some 50,
         effective_date := 0, end_date := none, changed_by := none }] }

/-- The four updates of the witness run for the history invariant. -/
def exOps3 : List SoftwareUpdate :=
  [{ name := none, cost_per_license := some (some 300), total_cost := none },
   { name := some "B", cost_per_license := none, total_cost := none },
   { name := none, cost_per_license := some (some 300), total_cost := none },
   { name := none, cost_per_license := none, total_cost := some (some 50) }]

/-- Witness for C3: a concrete creation followed by four updates, two of
them cost-changing. -/
theorem c3_witness :
    openRows exSt3.history 1 = 1 ∧
    closedRows exSt3.history 1
      = countCostChanging (create_software 0 ⟨[], []⟩ 1 "A" "per_user" (some 200) none) 1 exOps3 :=
  c3_history_single_open.1 ⟨[], []⟩ 1 "A" "per_user" (some 200) none exOps3 exSt3
    (by decide) (by decide) (by with_unfolding_all decide)

/-- C4: a successful department aggregation's hardware (and software)
total is the exact sum of the results of the division aggregations over
that department's active divisions; a successful division aggregation's
totals are the exact sums of the position-level results over its active
positions; the organization aggregation sums over active departments
only; and the division/position lists aggregated over contain no
inactive row. -/
theorem c4_rollup_exact_sums :
    (∀ (db : DB) (department_id : Nat) (S : DepartmentCostSummary),
        calculate_department_costs db department_id = .ok S →
        ∃ divSums, exMap (fun d => calculate_division_costs db d.id)
            (activeDivisionsOf db department_id) = .ok divSums ∧
          S.hardware_total = (divSums.map (fun c => c.hardware_total)).sum ∧
          S.software_total = (divSums.map (fun c => c.software_total)).sum) ∧
    (∀ (db : DB) (division_id : Nat) (S : DivisionCostSummary),
        calculate_division_costs db division_id = .ok S →
        ∃ posSums, exMap (fun p => calculate_position_cost db p.id)
            (activePositionsOf db division_id) = .ok posSums ∧
          S.hardware_total = (posSums.map (fun c => c.hardware_total)).sum ∧
          S.software_total = (posSums.map (fun c => c.software_total)).sum) ∧
    (∀ (db : DB) (S : OrganizationCostSummary),
        calculate_organization_costs db = .ok S →
        ∃ deptSums, exMap (fun d => calculate_department_costs db d.id)
            (db.departments.filter (fun d => d.is_active)) = .ok deptSums ∧
          S.hardware_total = (deptSums.map (fun c => c.hardware_total)).sum) ∧
    (∀ (db : DB) (department_id : Nat) (d : Division),
        d ∈ activeDivisionsOf db department_id → d.is_active = true) ∧
    (∀ (db : DB) (division_id : Nat) (p : Position),
        p ∈ activePositionsOf db division_id → p.is_active = true) := by
  refine ⟨?_, ?_, ?_, ?_, ?_⟩
  · intro db department_id S h
    unfold calculate_department_costs at h
    split at h
    · exact absurd h (by simp)
    dsimp only at h
    split at h
    · exact absurd h (by simp)
    rename_i divSums heq
    cases h
    exact ⟨divSums, heq, rfl, rfl⟩
  · intro db division_id S h
    unfold calculate_division_costs at h
    split at h
    · exact absurd h (by simp)
    split at h
    · exact absurd h (by simp)
    dsimp only at h
    split at h
    · exact absurd h (by simp)
    rename_i posSums heq
    cases h
    exact ⟨posSums, heq, rfl, rfl⟩
  · intro db S h
    unfold calculate_organization_costs at h
    dsimp only at h
    split at h
    · exact absurd h (by simp)
    rename_i deptSums heq
    cases h
    exact ⟨deptSums, heq, rfl⟩
  · intro db department_id d hd
    unfold activeDivisionsOf at hd
    have h2 : d.department_id = department_id ∧ d.is_active = true := by
      simpa using List.of_mem_filter hd
    exact h2.2
  · intro db division_id p hp
    unfold activePositionsOf at hp
    have h2 : p.division_id = division_id ∧ p.is_active = true := by
      simpa using List.of_mem_filter hp
    exact h2.2

/-- The department summary of the rollup example database. -/
def exS4 : DepartmentCostSummary :=
  { department_id := 1, department_name := "D", division_count := 1
    position_count := 1, total_authorized := 2
    hardware_total := 0, software_total := 400, grand_total := 400 }

/-- The division summary of the rollup example database. -/
def exS4d : DivisionCostSummary :=
  { division_id := 1, division_name := "DV1", department_id := 1
    department_name := "D", position_count := 1, total_authorized := 2
    hardware_total := 0, software_total := 400, grand_total := 400 }

set_option maxRecDepth 8000 in
/-- Witness for C4 at the rollup example database. -/
theorem c4_witness :
    (∃ divSums, exMap (fun d => calculate_division_costs exDb4 d.id)
        (activeDivisionsOf exDb4 1) = .ok divSums ∧
      exS4.hardware_total = (divSums.map (fun c => c.hardware_total)).sum ∧
      exS4.software_total = (divSums.map (fun c => c.software_total)).sum) ∧
    (∃ posSums, exMap (fun p => calculate_position_cost exDb4 p.id)
        (activePositionsOf exDb4 1) = .ok posSums ∧
      exS4d.hardware_total = (posSums.map (fun c => c.hardware_total)).sum ∧
      exS4d.software_total = (posSums.map (fun c => c.software_total)).sum) :=
  ⟨c4_rollup_exact_sums.1 exDb4 1 exS4 (by with_unfolding_all decide),
   c4_rollup_exact_sums.2.1 exDb4 1 exS4d (by with_unfolding_all decide)⟩

/-- C5 (code bug): for a position with `authorized_count = 0`, the code
is supposed to succeed with `grand_total = 0` for any requirement set;
it does succeed — with `grand_total = 0` and `total_per_person` still
the sum of unit costs — when the requirements are software, but any
hardware requirement makes `calculate_position_cost` raise
`AttributeError`, because the loop reads `req.hardware_type`, an
attribute `PositionHardware` does not define. -/
theorem c5_zero_authorized_count :
    calculate_position_cost exDb5 7 = .error PyError.attributeError ∧
    (calculate_position_cost exDb5 8).toOption.map
        (fun s => (s.authorized_count, s.grand_total, s.total_per_person))
      = some (0, 0, 200) := by
  constructor
  · with_unfolding_all decide
  · with_unfolding_all decide

/-- C6 (code bug): on the repository's own test fixture (hardware item
at 1200, quantity 2, three seats — the test expects a 2400 per-person
line and a 7200 position total), `calculate_position_cost` raises
`AttributeError` instead of pricing the line, because
`cost_service.py:171` reads `req.hardware_type`, which
`PositionHardware` does not define. -/
theorem c6_hardware_pricing_crashes :
    exDb6.position_hardware = [{ position_id := 3, hardware_id := 1, quantity := 2 }] ∧
    exDb6.hardware_items.map (fun h => h.estimated_cost) = [1200] ∧
    calculate_position_cost exDb6 3 = .error PyError.attributeError := by
  refine ⟨rfl, by decide, by with_unfolding_all decide⟩

/-- C7 (code bug): the tenant share itself is the documented degenerate
`0` — no exception — for an item with zero coverage rules or zero
resolved headcount; but the enclosing position calculation does not
complete when the position also has hardware lines, because the
hardware loop raises `AttributeError` on `req.hardware_type`. -/
theorem c7_degenerate_allocation :
    (∀ (db : DB) (sw : Software) (position : Position),
        db.coverages.filter (fun c => c.software_id == sw.id) = [] →
        tenantShare db sw position = 0) ∧
    (∀ (db : DB) (sw : Software) (position : Position),
        tenantHeadcount db sw.id = 0 →
        tenantShare db sw position = 0) ∧
    calculate_position_cost exDb7 9 = .error PyError.attributeError := by
  exact ⟨fun db sw p h => tenantShare_zero_coverage p h,
         fun db sw p h => tenantShare_zero_headcount p h,
         by with_unfolding_all decide⟩

/-- Witness for C7: the zero-coverage tenant item of the degenerate
database resolves to a zero share for the requesting position. -/
theorem c7_witness :
    tenantShare exDb7
      { id := 5, name := "Tenant Zero", license_model := "tenant",
        cost_per_license := none, total_cost := some 500, is_active := true }
      { id := 9, division_id := 1, position_code := "P9", position_title := "Mixed",
        authorized_count := 4, is_active := true } = 0 :=
  c7_degenerate_allocation.1 exDb7
    { id := 5, name := "Tenant Zero", license_model := "tenant",
      cost_per_license := none, total_cost := some 500, is_active := true }
    { id := 9, division_id := 1, position_code := "P9", position_title := "Mixed",
      authorized_count := 4, is_active := true }
    (by decide)

/-- C8: a position, division or department id that matches no row makes
the corresponding calculation raise the typed not-found `ValueError`
carrying that id, rather than return a zero-cost summary. -/
theorem c8_not_found_errors :
    (∀ (db : DB) (pid : Nat), db.positions.find? (fun p => p.id == pid) = none →
        calculate_position_cost db pid
          = .error (.valueError ("Position ID " ++ toString pid ++ " not found."))) ∧
    (∀ (db : DB) (did : Nat), db.divisions.find? (fun d => d.id == did) = none →
        calculate_division_costs db did
          = .error (.valueError ("Division ID " ++ toString did ++ " not found."))) ∧
    (∀ (db : DB) (deid : Nat), db.departments.find? (fun d => d.id == deid) = none →
        calculate_department_costs db deid
          = .error (.valueError ("Department ID " ++ toString deid ++ " not found."))) := by
  refine ⟨?_, ?_, ?_⟩
  · intro db pid h
    unfold calculate_position_cost
    rw [h]
  · intro db did h
    unfold calculate_division_costs
    rw [h]
  · intro db deid h
    unfold calculate_department_costs
    rw [h]

/-- Witness for C8 on the empty database. -/
theorem c8_witness :
    calculate_position_cost emptyDb 1
        = .error (.valueError ("Position ID " ++ toString 1 ++ " not found.")) ∧
    calculate_division_costs emptyDb 2
        = .error (.valueError ("Division ID " ++ toString 2 ++ " not found.")) ∧
    calculate_department_costs emptyDb 3
        = .error (.valueError ("Department ID " ++ toString 3 ++ " not found.")) :=
  ⟨c8_not_found_errors.1 emptyDb 1 rfl,
   c8_not_found_errors.2.1 emptyDb 2 rfl,
   c8_not_found_errors.2.2 emptyDb 3 rfl⟩

/-- C9: the tenant share never inspects the requesting position — the
share function is constant in its position argument — so a position
holding a requirement on a tenant item with nonzero cost and headcount
is charged share × authorized count even when its own id is not in the
item's resolved coverage set. -/
theorem c9_share_ignores_membership :
    (∀ (db : DB) (sw : Software) (p q : Position),
        tenantShare db sw p = tenantShare db sw q) ∧
    (∀ (db : DB) (pid : Nat) (S : PositionCostSummary),
        calculate_position_cost db pid = .ok S →
        ∀ req ∈ db.position_software.filter (fun r => r.position_id == pid),
        ∀ sw, db.softwares.find? (fun s => s.id == req.software_id) = some sw →
          sw.license_model = "tenant" →
          sw.total_cost.getD 0 ≠ 0 →
          tenantHeadcount db sw.id ≠ 0 →
          pid ∉ coveredPositionIds db sw.id →
          ∃ line ∈ S.software_lines, line.software_id = sw.id ∧
            line.line_total = sw.total_cost.getD 0 / (tenantHeadcount db sw.id : Money) ∧
            line.position_total = line.line_total * (S.authorized_count : Money)) := by
  constructor
  · intro db sw p q
    rfl
  · intro db pid S h req hreq sw hsw hlm htc hhc hmem
    have hlm' : sw.license_model ≠ "per_user" := by
      rw [hlm]
      decide
    obtain ⟨position, hp, hauth, line, hline, hid, hlt, hpt⟩ :=
      tenant_line_mem h hreq hsw hlm'
    refine ⟨line, hline, hid, ?_, ?_⟩
    · rw [hlt, tenantShare_eq_div position hhc]
    · rw [hauth]
      exact hpt

/-- The summary returned for the uncovered position of the
division-scoped coverage database. -/
def exS9 : PositionCostSummary :=
  { position_id := 2, position_title := "Clerk", position_code := "PB"
    division_id := 2, division_name := "B"
    department_id := 1, department_name := "Operations"
    authorized_count := 5
    hardware_lines := []
    software_lines :=
      [{ software_id := 7, software_name := "Records System", license_model := "tenant",
         quantity := 1, unit_cost := 90, line_total := 90, position_total := 450 }]
    hardware_total_per_person := 0, software_total_per_person := 90
    total_per_person := 90, hardware_total := 0, software_total := 450
    grand_total := 450 }

set_option maxRecDepth 8000 in
/-- Witness for C9: position 2 is outside the covered set of item 7 yet
its summary carries the 90-per-seat, 450-total line. -/
theorem c9_witness :
    ∃ line ∈ exS9.software_lines,
      line.software_id = (7 : Nat) ∧
      line.line_total = (Option.some (900 : Money)).getD 0 / ((tenantHeadcount exDb9 7 : Nat) : Money) ∧
      line.position_total = line.line_total * ((exS9.authorized_count : Nat) : Money) :=
  c9_share_ignores_membership.2 exDb9 2 exS9 (by with_unfolding_all decide)
    { position_id := 2, software_id := 7, quantity := 1 } (by decide)
    { id := 7, name := "Records System", license_model := "tenant",
      cost_per_license := none, total_cost := some 900, is_active := true }
    (by decide) rfl (by decide) (by decide) (by decide)

set_option maxRecDepth 8000 in
/-- C10 (code bug): the position-level entry point never checks
`is_active` — an existing inactive position is priced exactly like an
active one, and inactivity is filtered only by the rollups (the
division aggregation below prices the division to zero rows without
touching its two inactive positions) — but "priced normally, returning
a full summary" fails for an inactive position holding a hardware
requirement, which raises `AttributeError` through the
`req.hardware_type` access instead of returning a summary. -/
theorem c10_inactive_position_entry :
    calculate_position_cost exDb10 10 = .error PyError.attributeError ∧
    (calculate_position_cost exDb10 11).toOption.map
        (fun s => (s.authorized_count, s.software_total, s.grand_total))
      = some (4, 1600, 1600) ∧
    calculate_division_costs exDb10 1
      = .ok { division_id := 1, division_name := "DV", department_id := 1
              department_name := "D", position_count := 0, total_authorized := 0
              hardware_total := 0, software_total := 0, grand_total := 0 } := by
  refine ⟨?_, ?_, ?_⟩
  · with_unfolding_all decide
  · with_unfolding_all decide
  · with_unfolding_all decide

end CostEngine
